import Mathlib

/-!
Verification of the Solvathon university-portal backend and its
"smart repository" document service.

The Python sources are shallowly embedded: wall-clock timestamps become
natural numbers counting microseconds (the resolution of Python
datetimes), database tables become lists of rows, outcomes of external
calls (bcrypt, the classifier API, the embedding model) are passed in as
parameters or `Except` values, and a request handler becomes a function
from its inputs and the current store to the new store plus an
`Except`-style HTTP outcome.  Python name resolution inside a module is
made explicit where it matters: referencing a name that the module never
bound raises a `NameError`.
-/

namespace Solv

/-! Time units.  Python `datetime` has microsecond resolution; timestamps
are microseconds since an arbitrary epoch. -/

def usPerSecond : Nat := 1000000

def usPerMinute : Nat := 60 * usPerSecond

def usPerDay : Nat := 24 * 60 * usPerMinute

/-- Role enum from backend/app/models.py. -/
inductive Role
  | STUDENT
  | FACULTY
  | ADMIN
deriving DecidableEq

/-- Status enum from backend/app/models.py.  Its only members are
PENDING, ACTIVE and SUSPENDED. -/
inductive Status
  | PENDING
  | ACTIVE
  | SUSPENDED
deriving DecidableEq

/-- Python attribute lookup on the Status enum class: `Status.X` succeeds
exactly for the declared members, and raises AttributeError otherwise. -/
def Status.attrLookup : String → Option Status
  | "PENDING" => some Status.PENDING
  | "ACTIVE" => some Status.ACTIVE
  | "SUSPENDED" => some Status.SUSPENDED
  | _ => none

/-- FileStatus enum from backend/app/models.py. -/
inductive FileStatus
  | PENDING
  | APPROVED
  | DENIED
deriving DecidableEq

/-- User row from backend/app/models.py (the fields the authentication
and admin flows read or write).  `lockout_until` is an optional
microsecond timestamp. -/
structure Account where
  id : Nat
  email : String
  role : Role
  status : Status
  failed_attempts : Nat
  lockout_until : Option Nat
deriving DecidableEq

/-- Claims carried by a JWT issued in backend/app/auth.py.  The access
token embeds email/role/status; the refresh token carries the subject
only, so those fields are optional here.  `exp` is a microsecond
timestamp. -/
structure TokenClaims where
  sub : Nat
  email : Option String
  role : Option Role
  status : Option Status
  exp : Nat
deriving DecidableEq

/-- create_access_token from backend/app/auth.py, called without an
explicit expires_delta: expiry defaults to now + 30 days. -/
def create_access_token (now : Nat) (a : Account) : TokenClaims :=
  { sub := a.id
    email := some a.email
    role := some a.role
    status := some a.status
    exp := now + 30 * usPerDay }

/-- create_refresh_token from backend/app/auth.py, called without an
explicit expires_delta: expiry defaults to now + 7 days, and only the
subject is embedded. -/
def create_refresh_token (now : Nat) (a : Account) : TokenClaims :=
  { sub := a.id
    email := none
    role := none
    status := none
    exp := now + 7 * usPerDay }

/-- A Set-Cookie issued by the login handler.  `max_age` and `expires`
are in seconds, as in the Python source. -/
structure SetCookie where
  key : String
  httponly : Bool
  max_age : Nat
  expires : Nat
  samesite : String
  path : String
deriving DecidableEq

/-- days_30 from backend/app/routers/auth.py: 30*24*60*60 seconds. -/
def days_30 : Nat := 30 * 24 * 60 * 60

/-- Cookie attributes used for both the access and the refresh cookie in
the login handler. -/
def mkAuthCookie (key : String) : SetCookie :=
  { key := key
    httponly := true
    max_age := days_30
    expires := days_30
    samesite := "lax"
    path := "/" }

/-- Outcome of the login handler, mirroring the distinct HTTP responses
of backend/app/routers/auth.py.  `invalidCredentials n` is the 401
"Invalid email or password. Attempt n/4" message; `lockedNow` is the 401
"Too many failed attempts. Account locked for 10 minutes." message;
`lockedRetry m` is the 403 "Please retry in m minutes." message. -/
inductive LoginResult
  | invalidCredentials (attempt : Nat)
  | lockedNow
  | lockedRetry (retryMinutes : Nat)
  | pendingApproval
  | suspended
  | success (access refresh : TokenClaims) (accessCookie refreshCookie : SetCookie)
deriving DecidableEq

/-- Part of the login handler after the lockout gate: password check,
failed-attempt accounting, status gate and token issuance.  `passwordOk`
is the outcome of the external verify_password (bcrypt) call.  The
returned account is the state committed to the database (the source
commits the counter reset before the PENDING/SUSPENDED gate). -/
def loginAfterLockCheck (now : Nat) (passwordOk : Bool) (a : Account) :
    Account × LoginResult :=
  if passwordOk then
    let a' := { a with failed_attempts := 0, lockout_until := none }
    if a'.status = Status.PENDING then (a', LoginResult.pendingApproval)
    else if a'.status = Status.SUSPENDED then (a', LoginResult.suspended)
    else
      (a', LoginResult.success (create_access_token now a') (create_refresh_token now a')
        (mkAuthCookie "access_token") (mkAuthCookie "refresh_token"))
  else
    let n := a.failed_attempts + 1
    if 4 ≤ n then
      ({ a with failed_attempts := 0, lockout_until := some (now + 10 * usPerMinute) },
       LoginResult.lockedNow)
    else
      ({ a with failed_attempts := n }, LoginResult.invalidCredentials n)

/-- The login handler from backend/app/routers/auth.py, for a request
whose email resolved to account `a`.  The lockout gate fires when
`lockout_until` is set and strictly in the future; its retry-in value is
`int(remaining_seconds / 60) + 1`, i.e. floor division on microseconds
by usPerMinute, plus one. -/
def login (now : Nat) (passwordOk : Bool) (a : Account) : Account × LoginResult :=
  match a.lockout_until with
  | some t =>
    if now < t then
      (a, LoginResult.lockedRetry ((t - now) / usPerMinute + 1))
    else
      loginAfterLockCheck now passwordOk a
  | none => loginAfterLockCheck now passwordOk a

/-- The lockout test of the login handler as a Boolean: lockout_until is
set and strictly after `now`. -/
def lockActive (now : Nat) (a : Account) : Bool :=
  match a.lockout_until with
  | some t => decide (now < t)
  | none => false

/-! Smart-repository service (routes/, services/, database/db.py).

String primitives of the Python standard library (str.split, str.strip,
str.lower, substring containment) are embedded as structurally recursive
functions over the character list of the string, so that they evaluate on
concrete inputs. -/

/-- Characters removed by Python str.strip(). -/
def pyWhitespace (c : Char) : Bool :=
  c == ' ' || c == '\t' || c == '\n' || c == '\r' || c == '\x0b' || c == '\x0c'

/-- Python str.strip() on a character list. -/
def stripList (cs : List Char) : List Char :=
  ((cs.dropWhile pyWhitespace).reverse.dropWhile pyWhitespace).reverse

/-- Python str.strip(). -/
def pyStrip (s : String) : String :=
  String.mk (stripList s.toList)

/-- Helper for pySplitOnChar: accumulate the current field (reversed). -/
def splitOnCharAux (sep : Char) : List Char → List Char → List (List Char)
  | [], acc => [acc.reverse]
  | c :: cs, acc =>
    if c == sep then acc.reverse :: splitOnCharAux sep cs []
    else splitOnCharAux sep cs (c :: acc)

/-- Python str.split(sep) for a one-character separator. -/
def pySplitOnChar (sep : Char) (s : String) : List String :=
  (splitOnCharAux sep s.toList []).map String.mk

/-- Python str.lower(). -/
def pyToLower (s : String) : String :=
  String.mk (s.toList.map Char.toLower)

/-- Whether the second list begins the first. -/
def startsWithList : List Char → List Char → Bool
  | _, [] => true
  | [], _ :: _ => false
  | c :: cs, d :: ds => c == d && startsWithList cs ds

/-- Python substring containment (needle in hay). -/
def containsSub : List Char → List Char → Bool
  | hay, needle =>
    if startsWithList hay needle then true
    else
      match hay with
      | [] => false
      | _ :: cs => containsSub cs needle

/-- Result of ai_review in services/moderation_service.py.  The constant
score 0.85 is represented in centi-units to stay in exact arithmetic. -/
structure AiReview where
  scoreCenti : Nat
  flags : String
deriving DecidableEq

/-- ai_review from services/moderation_service.py: fixed score, and a
single "inappropriate" flag when the lower-cased text contains the
substring "badword". -/
def ai_review (text : String) : AiReview :=
  { scoreCenti := 85
    flags :=
      if containsSub (pyToLower text).toList "badword".toList then "inappropriate" else "" }

/-- determine_initial_status from services/moderation_service.py,
returning (status, visibility). -/
def determine_initial_status (role : String) : String × String :=
  if role = "faculty" then ("approved", "public")
  else if role = "student" then ("ai_reviewed", "private")
  else ("pending", "private")

/-- JSON object returned by the external classify_text call
(services/ai_classifier.py). -/
structure Metadata where
  semester : String
  subject_code : String
  unit : String
deriving DecidableEq

/-- Row of the repository_files table written by routes/upload.py. -/
structure RepoRow where
  filename : String
  file_type : String
  semester : String
  subject_code : String
  unit : String
  uploader_role : String
  owner_id : String
  status : String
  visibility : String
  ai_scoreCenti : Option Nat
  ai_flags : Option String
deriving DecidableEq

/-- Row of the doc_chunks table written by
services/document_rag_service.py. -/
structure ChunkRow where
  file_id : Nat
  subject_code : String
  content : String
  embedding : List Int
  chunk_index : Nat
  file_type : String
  section_label : Option String
deriving DecidableEq

/-- Modelled from the spec: the repository delegates text chunking to the
external RecursiveCharacterTextSplitter library, whose code is not part
of these sources.  Per the spec, chunking a text with chunk size C and
overlap O yields chunks whose start offsets advance by exactly C - O
except for the final chunk: a sliding window of width C and stride
C - O.  The degenerate configuration O >= C (never used by this
repository) returns the whole text as one chunk. -/
def splitTextSpec (C O : Nat) (text : List Char) : List (List Char) :=
  if h : text.length ≤ C ∨ C ≤ O then [text]
  else text.take C :: splitTextSpec C O (text.drop (C - O))
termination_by text.length
decreasing_by
  push_neg at h
  simp only [List.length_drop]
  omega

/-- The _SPLITTER_MAP of services/document_rag_service.py as
(chunk_size, chunk_overlap) per file type; unknown types fall back to
the dense splitter. -/
def splitterParams (file_type : String) : Nat × Nat :=
  if file_type = "pdf" ∨ file_type = "docx" ∨ file_type = "png" ∨ file_type = "jpg"
      ∨ file_type = "jpeg" then (500, 100)
  else if file_type = "pptx" then (800, 50)
  else if file_type = "txt" ∨ file_type = "csv" then (1000, 150)
  else (500, 100)

/-- split_text from services/document_rag_service.py: chunk with the
type-appropriate splitter (the splitter itself is spec-modelled, see
splitTextSpec). -/
def split_text (text : String) (file_type : String) : List String :=
  (splitTextSpec (splitterParams file_type).1 (splitterParams file_type).2 text.toList).map
    fun cs => String.mk cs

/-- process_document_chunks from services/document_rag_service.py: the
doc_chunks rows inserted for one unstructured document.  `emb` is the
external embedding model; chunk_index enumerates chunks from 0. -/
def process_document_chunks (emb : String → List Int) (file_id : Nat)
    (subject_code text file_type : String) : List ChunkRow :=
  (split_text text file_type).enum.map fun p =>
    { file_id := file_id
      subject_code := subject_code
      content := p.2
      embedding := emb p.2
      chunk_index := p.1
      file_type := file_type
      section_label := none }

/-- One structural section as produced by extract_text_with_structure
(services/document_processor.py): the dict keys "section" and
"content". -/
structure DocSection where
  sectionName : String
  content : String
deriving DecidableEq

/-- process_structured_chunks from services/document_rag_service.py:
sections with whitespace-only content are skipped, each remaining
section is chunked independently, and chunk_index runs sequentially
across the whole document. -/
def process_structured_chunks (emb : String → List Int) (file_id : Nat)
    (subject_code : String) (sections : List DocSection) (file_type : String) :
    List ChunkRow :=
  (sections.foldl
    (fun acc sec =>
      if pyStrip sec.content = "" then acc
      else
        let chunks := split_text sec.content file_type
        let rows := chunks.enum.map fun p =>
          { file_id := file_id
            subject_code := subject_code
            content := p.2
            embedding := emb p.2
            chunk_index := acc.2 + p.1
            file_type := file_type
            section_label := some sec.sectionName : ChunkRow }
        (acc.1 ++ rows, acc.2 + chunks.length))
    (([], 0) : List ChunkRow × Nat)).1

/-- Python-level failures surfaced by the embedded handlers. -/
inductive PyErr
  | nameError (name : String)
  | externalError (msg : String)
  | attrError (cls member : String)
  | httpError (code : Nat) (detail : String)
deriving DecidableEq

/-- Names bound at module level in routes/upload.py: its imports (the
from-import of database.db binds only get_connection) plus its own
definitions. -/
def uploadModuleNames : List String :=
  ["APIRouter", "UploadFile", "File", "Form", "List", "shutil", "os",
   "get_connection", "extract_text_universal", "extract_text_with_structure",
   "is_supported", "classify_text", "process_document_chunks",
   "process_structured_chunks", "process_multiple_document_chunks",
   "ai_review", "determine_initial_status", "router",
   "upload_file", "upload_multiple_files"]

/-- Names bound at module level in routes/search.py. -/
def searchModuleNames : List String :=
  ["APIRouter", "BaseModel", "SentenceTransformer", "get_connection",
   "embedding_model", "embed", "SemanticSearchRequest", "router",
   "semantic_topic_search"]

/-- State of the smart-repository side effects: files written to local
storage, repository_files rows and doc_chunks rows. -/
structure RepoState where
  savedPaths : List String
  repoRows : List RepoRow
  docChunks : List ChunkRow
deriving DecidableEq

/-- Response body of the single-file upload endpoint. -/
structure UploadResponse where
  role : String
  status : String
  visibility : String
  file_id : Nat
  metadata : Metadata
deriving DecidableEq

/-- SUPPORTED_EXTENSIONS from services/document_processor.py. -/
def SUPPORTED_EXTENSIONS : List String :=
  [".pdf", ".docx", ".pptx", ".png", ".jpg", ".jpeg", ".txt", ".csv"]

/-- The extension part of os.path.splitext: the final dot and suffix, or
"" when the name has no dot.  (The hidden-file corner case of splitext is
not modelled; no claim depends on it.) -/
def splitextExt (filename : String) : String :=
  if 2 ≤ (pySplitOnChar '.' filename).length then
    "." ++ ((pySplitOnChar '.' filename).getLast?.getD "")
  else ""

/-- is_supported from services/document_processor.py. -/
def is_supported (filename : String) : Bool :=
  SUPPORTED_EXTENSIONS.contains (pyToLower (splitextExt filename))

/-- The file-type tag derived in routes/upload.py:
filename.split(".")[-1].lower(). -/
def fileTypeOf (filename : String) : String :=
  pyToLower ((pySplitOnChar '.' filename).getLast?.getD "")

/-- upload_file from routes/upload.py (single-file endpoint).  External
outcomes are parameters: `extract` for extract_text_universal, `classify`
for classify_text (note: not wrapped in try/except on this path),
`sections` for extract_text_with_structure and `emb` for the embedding
model.  Step 6 calls get_connection_repo(), a name routes/upload.py
never binds, so reaching it raises NameError. -/
def upload_file (emb : String → List Int) (filename role owner_id : String)
    (extract : Except String String) (classify : Except String Metadata)
    (sections : List DocSection) (st : RepoState) :
    RepoState × Except PyErr UploadResponse :=
  let file_path := "uploads/" ++ filename
  let st1 := { st with savedPaths := st.savedPaths ++ [file_path] }
  let file_type := fileTypeOf filename
  match extract with
  | Except.error e => (st1, Except.error (PyErr.externalError e))
  | Except.ok text =>
    match classify with
    | Except.error e => (st1, Except.error (PyErr.externalError e))
    | Except.ok metadata =>
      let sv := determine_initial_status role
      let review := if role = "student" then some (ai_review text) else none
      if "get_connection_repo" ∈ uploadModuleNames then
        let file_id := st1.repoRows.length + 1
        let row : RepoRow :=
          { filename := filename
            file_type := file_type
            semester := metadata.semester
            subject_code := metadata.subject_code
            unit := metadata.unit
            uploader_role := role
            owner_id := owner_id
            status := sv.1
            visibility := sv.2
            ai_scoreCenti := review.map (fun r => r.scoreCenti)
            ai_flags := review.map (fun r => r.flags) }
        let st2 := { st1 with repoRows := st1.repoRows ++ [row] }
        let newChunks :=
          if sections ≠ [] then
            process_structured_chunks emb file_id metadata.subject_code sections file_type
          else
            process_document_chunks emb file_id metadata.subject_code text file_type
        ({ st2 with docChunks := st2.docChunks ++ newChunks },
         Except.ok
           { role := role, status := sv.1, visibility := sv.2
             file_id := file_id, metadata := metadata })
      else
        (st1, Except.error (PyErr.nameError "get_connection_repo"))

/-- One file of a batch upload, with the outcomes of its external calls. -/
structure BatchItem where
  filename : String
  extract : Except String String
  classify : Except String Metadata
  sections : List DocSection

/-- Whether a batch item's extraction call returns normally. -/
def BatchItem.extractOk (f : BatchItem) : Bool :=
  match f.extract with
  | Except.ok _ => true
  | Except.error _ => false

/-- Whether a batch item passes both loop guards (supported extension,
non-whitespace extracted text) and therefore reaches the insert step. -/
def BatchItem.isProcessed (f : BatchItem) : Bool :=
  is_supported f.filename &&
    (match f.extract with
     | Except.ok t => !(pyStrip t = "")
     | Except.error _ => false)

/-- The classification step of the batch loop in routes/upload.py:
exceptions are caught and replaced with placeholder metadata. -/
def batchClassifyStep (classify : Except String Metadata) : Metadata :=
  match classify with
  | Except.ok m => m
  | Except.error _ => { semester := "unknown", subject_code := "unknown", unit := "0" }

/-- One processed entry of the batch response. -/
structure BatchResultItem where
  filename : String
  file_id : Nat
  file_type : String
  metadata : Metadata
  status : String
  visibility : String
deriving DecidableEq

/-- One skipped entry of the batch response. -/
structure SkippedItem where
  filename : String
  reason : String
deriving DecidableEq

/-- Response body of the batch upload endpoint. -/
structure BatchResponse where
  processed : List BatchResultItem
  skipped : List SkippedItem
deriving DecidableEq

/-- Loop body of upload_multiple_files from routes/upload.py.  The
per-file status/visibility pair `sv` is computed once before the loop.
Unsupported or empty-text files are skipped; a failing extraction call
propagates (uncaught); a failing classification call is caught and
replaced by placeholders; the insert step then references
get_connection_repo, unbound in this module, so the first file that
reaches it aborts the whole endpoint with NameError. -/
def upload_multiple_files_go (emb : String → List Int) (role owner_id : String)
    (sv : String × String) :
    List BatchItem → RepoState → List BatchResultItem → List SkippedItem →
    RepoState × Except PyErr BatchResponse
  | [], st, results, skipped => (st, Except.ok { processed := results, skipped := skipped })
  | f :: rest, st, results, skipped =>
    if is_supported f.filename = false then
      upload_multiple_files_go emb role owner_id sv rest st results
        (skipped ++ [{ filename := f.filename, reason := "Unsupported file type" }])
    else
      let file_path := "uploads/" ++ f.filename
      let st1 := { st with savedPaths := st.savedPaths ++ [file_path] }
      let file_type := fileTypeOf f.filename
      match f.extract with
      | Except.error e => (st1, Except.error (PyErr.externalError e))
      | Except.ok text =>
        if pyStrip text = "" then
          upload_multiple_files_go emb role owner_id sv rest st1 results
            (skipped ++ [{ filename := f.filename, reason := "No text could be extracted" }])
        else
          let metadata := batchClassifyStep f.classify
          let review := if role = "student" then some (ai_review text) else none
          if "get_connection_repo" ∈ uploadModuleNames then
            let file_id := st1.repoRows.length + 1
            let row : RepoRow :=
              { filename := f.filename
                file_type := file_type
                semester := metadata.semester
                subject_code := metadata.subject_code
                unit := metadata.unit
                uploader_role := role
                owner_id := owner_id
                status := sv.1
                visibility := sv.2
                ai_scoreCenti := review.map (fun r => r.scoreCenti)
                ai_flags := review.map (fun r => r.flags) }
            let st2 := { st1 with repoRows := st1.repoRows ++ [row] }
            let newChunks :=
              if f.sections ≠ [] then
                process_structured_chunks emb file_id metadata.subject_code f.sections file_type
              else
                process_document_chunks emb file_id metadata.subject_code text file_type
            upload_multiple_files_go emb role owner_id sv rest
              { st2 with docChunks := st2.docChunks ++ newChunks }
              (results ++ [{ filename := f.filename, file_id := file_id
                             file_type := file_type, metadata := metadata
                             status := sv.1, visibility := sv.2 }])
              skipped
          else
            (st1, Except.error (PyErr.nameError "get_connection_repo"))

/-- upload_multiple_files from routes/upload.py. -/
def upload_multiple_files (emb : String → List Int) (role owner_id : String)
    (files : List BatchItem) (st : RepoState) :
    RepoState × Except PyErr BatchResponse :=
  upload_multiple_files_go emb role owner_id (determine_initial_status role) files st [] []

/-! RAG retrieval (services/document_rag_service.py) and semantic search
(routes/search.py).  The SQL "ORDER BY embedding <-> q ASC LIMIT k" is
embedded as: sort the filtered rows by ascending distance to q, then
take k.  The vector metric is embedded as an exact squared Euclidean
distance over integer vectors. -/

/-- Squared Euclidean distance between two integer vectors. -/
def dist2 (a b : List Int) : Int :=
  ((a.zip b).map fun p => (p.1 - p.2) * (p.1 - p.2)).sum

/-- Distance of a stored chunk to the query embedding. -/
def chunkDist (q : List Int) (c : ChunkRow) : Int := dist2 c.embedding q

/-- Insert a chunk into a distance-sorted list, keeping it sorted. -/
def insertSortedByDist (q : List Int) (c : ChunkRow) : List ChunkRow → List ChunkRow
  | [] => [c]
  | d :: ds =>
    if chunkDist q c ≤ chunkDist q d then c :: d :: ds
    else d :: insertSortedByDist q c ds

/-- Sort chunks by ascending distance to the query embedding. -/
def orderByDist (q : List Int) : List ChunkRow → List ChunkRow
  | [] => []
  | c :: cs => insertSortedByDist q c (orderByDist q cs)

/-- Rows returned by the SQL query of chat_with_single_document:
WHERE file_id = fid ORDER BY distance ASC LIMIT 3. -/
def chat_with_single_document_rows (db : List ChunkRow) (q : List Int)
    (file_id : Nat) : List ChunkRow :=
  (orderByDist q (db.filter fun c => decide (c.file_id = file_id))).take 3

/-- Rows returned by the SQL query of chat_with_subject:
WHERE subject_code = sc ORDER BY distance ASC LIMIT 5. -/
def chat_with_subject_rows (db : List ChunkRow) (q : List Int)
    (subject_code : String) : List ChunkRow :=
  (orderByDist q (db.filter fun c => decide (c.subject_code = subject_code))).take 5

/-- The newline-joined context block passed to the external
answer-generation call by both chat scopes. -/
def ragContext (rows : List ChunkRow) : String :=
  String.intercalate "\n" (rows.map fun c => c.content)

/-- semantic_topic_search from routes/search.py.  It embeds the query and
then calls get_connection_repo(), a name routes/search.py never binds
(its import of database.db binds only get_connection), so every call
raises NameError before any query runs.  The unreachable live branch is
therefore represented by its ranked top-25 row set. -/
def semantic_topic_search (emb : String → List Int) (query : String)
    (db : List ChunkRow) : Except PyErr (List ChunkRow) :=
  let qv := emb query
  if "get_connection_repo" ∈ searchModuleNames then
    Except.ok ((orderByDist qv db).take 25)
  else
    Except.error (PyErr.nameError "get_connection_repo")

/-! Portal file intake and admin moderation
(backend/app/routers/faculty.py, student.py, admin.py). -/

/-- UploadedFile row from backend/app/models.py. -/
structure UploadedFileRow where
  id : Nat
  filename : String
  file_path : String
  subject_code : String
  unit : String
  semester : String
  uploaded_by_id : Nat
  uploaded_by_role : Role
  status : FileStatus
deriving DecidableEq

/-- Storage path used by both portal upload endpoints:
uploads/semester/subject_code/unit_N/filename. -/
def portalFilePath (semester subject_code unit filename : String) : String :=
  "uploads/" ++ semester ++ "/" ++ subject_code ++ "/unit_" ++ unit ++ "/" ++ filename

/-- The UploadedFile row created by faculty_upload_file
(backend/app/routers/faculty.py): status is hard-coded APPROVED. -/
def facultyUploadRow (fid : Nat) (filename subject_code unit semester : String)
    (uid : Nat) : UploadedFileRow :=
  { id := fid
    filename := filename
    file_path := portalFilePath semester subject_code unit filename
    subject_code := subject_code
    unit := unit
    semester := semester
    uploaded_by_id := uid
    uploaded_by_role := Role.FACULTY
    status := FileStatus.APPROVED }

/-- The metadata-inference step of student_upload_file
(backend/app/routers/student.py): defaults ("UNKNOWN", "6", "1") for
(subject_code, semester, unit), overridden by the classify-only call
when it returns successfully; any exception (or non-OK response) is
caught and the defaults stand. -/
def studentClassifyStep (classify : Except String Metadata) :
    String × String × String :=
  match classify with
  | Except.ok m => (m.subject_code, m.semester, m.unit)
  | Except.error _ => ("UNKNOWN", "6", "1")

/-- The UploadedFile row created by student_upload_file
(backend/app/routers/student.py): status is hard-coded PENDING. -/
def studentUploadRow (fid : Nat) (filename : String) (uid : Nat)
    (classify : Except String Metadata) : UploadedFileRow :=
  let scu := studentClassifyStep classify
  { id := fid
    filename := filename
    file_path := portalFilePath scu.2.1 scu.1 scu.2.2 filename
    subject_code := scu.1
    unit := scu.2.2
    semester := scu.2.1
    uploaded_by_id := uid
    uploaded_by_role := Role.STUDENT
    status := FileStatus.PENDING }

/-- approve_file from backend/app/routers/admin.py: 404 when the id does
not resolve; otherwise the RAG re-submission runs inside try/except with
any failure swallowed, and the status is then set to APPROVED
unconditionally, whatever it was before. -/
def approve_file (db : List UploadedFileRow) (fid : Nat) :
    List UploadedFileRow × Except PyErr Unit :=
  match db.find? (fun f => f.id == fid) with
  | none => (db, Except.error (PyErr.httpError 404 "File not found"))
  | some _ =>
    (db.map (fun f => if f.id == fid then { f with status := FileStatus.APPROVED } else f),
     Except.ok ())

/-- deny_file from backend/app/routers/admin.py: sets the status to
DENIED unconditionally. -/
def deny_file (db : List UploadedFileRow) (fid : Nat) :
    List UploadedFileRow × Except PyErr Unit :=
  match db.find? (fun f => f.id == fid) with
  | none => (db, Except.error (PyErr.httpError 404 "File not found"))
  | some _ =>
    (db.map (fun f => if f.id == fid then { f with status := FileStatus.DENIED } else f),
     Except.ok ())

/-- The status of the file with the given id, if present. -/
def fileStatus (db : List UploadedFileRow) (fid : Nat) : Option FileStatus :=
  (db.find? (fun f => f.id == fid)).map fun f => f.status

/-- deny_account from backend/app/routers/admin.py: 404 when the id does
not resolve; otherwise the handler evaluates Status.DENIED, an attribute
the Status enum does not define, before any assignment or commit. -/
def deny_account (db : List Account) (uid : Nat) : List Account × Except PyErr String :=
  match db.find? (fun u => u.id == uid) with
  | none => (db, Except.error (PyErr.httpError 404 "User not found"))
  | some _ =>
    match Status.attrLookup "DENIED" with
    | none => (db, Except.error (PyErr.attrError "Status" "DENIED"))
    | some s =>
      (db.map (fun u => if u.id == uid then { u with status := s } else u),
       Except.ok "Account denied.")

/-- Concatenation of chunks with each later chunk's leading O-character
overlap removed, as described by the spec's chunking property. -/
def joinWithOverlapRemoved (O : Nat) : List (List Char) → List Char
  | [] => []
  | c :: cs => c ++ (cs.map fun d => d.drop O).flatten

/-! Concrete inputs used to instantiate the theorems below. -/

/-- An active account with a clean failure history. -/
def acctOk : Account :=
  { id := 1
    email := "stu@university.edu"
    role := Role.STUDENT
    status := Status.ACTIVE
    failed_attempts := 0
    lockout_until := none }

/-- An account whose lockout window ends exactly 10 minutes after the
epoch: the state the login handler itself writes at a lockout triggered
at time 0. -/
def acctLocked : Account :=
  { acctOk with lockout_until := some (10 * usPerMinute) }

/-- An account locked until 90 seconds after the epoch. -/
def acctLocked90 : Account :=
  { acctOk with lockout_until := some 90000000 }

/-- An already-approved portal file row. -/
def fileRowApproved : UploadedFileRow :=
  { id := 1
    filename := "notes.pdf"
    file_path := "uploads/6/CS101/unit_1/notes.pdf"
    subject_code := "CS101"
    unit := "1"
    semester := "6"
    uploaded_by_id := 2
    uploaded_by_role := Role.FACULTY
    status := FileStatus.APPROVED }

/-- An embedding stub used to instantiate pipeline theorems. -/
def embZero : String → List Int := fun _ => []

/-- The empty smart-repository state. -/
def emptyRepoState : RepoState :=
  { savedPaths := [], repoRows := [], docChunks := [] }

/-- A concrete classifier result. -/
def mdExample : Metadata :=
  { semester := "6", subject_code := "CS101", unit := "1" }

/-- A supported batch item whose external calls return normally. -/
def batchItemTxt : BatchItem :=
  { filename := "notes.txt"
    extract := Except.ok "hello world"
    classify := Except.ok mdExample
    sections := [] }

/-! Theorems. -/

/-- Claim C1: for an account in the OK state (failed_attempts < 4 and no
active lockout), a wrong-password attempt increments failed_attempts;
on the counter reaching 4 it sets lockout_until to now + 10 minutes and
resets failed_attempts to 0; failures 1 through 3 instead answer with
the 401 message carrying the attempt count n of 4, so the remaining
count 4 - n it reports is positive. -/
theorem C1_lockout_after_four_failures (now : Nat) (a : Account)
    (hfa : a.failed_attempts < 4) (hlock : lockActive now a = false) :
    (a.failed_attempts < 3 →
      login now false a =
        ({ a with failed_attempts := a.failed_attempts + 1 },
         LoginResult.invalidCredentials (a.failed_attempts + 1)) ∧
      0 < 4 - (a.failed_attempts + 1)) ∧
    (a.failed_attempts = 3 →
      login now false a =
        ({ a with failed_attempts := 0,
                  lockout_until := some (now + 10 * usPerMinute) },
         LoginResult.lockedNow)) := by
  have hbranch : login now false a = loginAfterLockCheck now false a := by
    unfold login
    cases h : a.lockout_until with
    | none => rfl
    | some t =>
      simp only [lockActive, h, decide_eq_false_iff_not] at hlock
      simp [hlock]
  rw [hbranch]
  unfold loginAfterLockCheck
  simp only [Bool.false_eq_true, if_false]
  constructor
  · intro h3
    have hlt : ¬ (4 ≤ a.failed_attempts + 1) := by omega
    rw [if_neg hlt]
    exact ⟨rfl, by omega⟩
  · intro h3
    have hge : 4 ≤ a.failed_attempts + 1 := by omega
    rw [if_pos hge]

/-- Witness for claim C1 at the concrete account acctOk at time 0. -/
theorem C1_lockout_after_four_failures_witness :
    acctOk.failed_attempts < 4 ∧ lockActive 0 acctOk = false ∧
    ((acctOk.failed_attempts < 3 →
      login 0 false acctOk =
        ({ acctOk with failed_attempts := acctOk.failed_attempts + 1 },
         LoginResult.invalidCredentials (acctOk.failed_attempts + 1)) ∧
      0 < 4 - (acctOk.failed_attempts + 1)) ∧
    (acctOk.failed_attempts = 3 →
      login 0 false acctOk =
        ({ acctOk with failed_attempts := 0,
                       lockout_until := some (0 + 10 * usPerMinute) },
         LoginResult.lockedNow))) :=
  ⟨by decide, by decide,
   C1_lockout_after_four_failures 0 acctOk (by decide) (by decide)⟩

/-- Claim C2 counterexample: for an account whose lockout window is
exactly 10 minutes away (the very state the lockout transition writes,
read back at the same clock reading), the handler reports a retry-after
of int(600/60) + 1 = 11 minutes, whereas the claim demands
ceil(600s/60s) = 10 and a bound of at most 10 minutes. -/
theorem C2_counterexample :
    login 0 false acctLocked = (acctLocked, LoginResult.lockedRetry 11) ∧
    (10 * usPerMinute + usPerMinute - 1) / usPerMinute = 10 ∧
    ¬ ((11 : Nat) ≤ 10) := by
  exact ⟨by decide, by decide, by decide⟩

/-- Claim C2 (amended): a login attempt on an account whose
lockout_until lies strictly in the future is rejected with the account
state unmodified, reporting a retry-after of
floor((lockout_until - now)/60s) + 1 minutes; that value coincides with
ceil((lockout_until - now)/60s) whenever the difference is not an exact
multiple of 60s, is always positive, and is at most 10 whenever the
difference is strictly below 10 minutes. -/
theorem C2_locked_rejection (now t : Nat) (passwordOk : Bool) (a : Account)
    (hl : a.lockout_until = some t) (hfut : now < t) :
    login now passwordOk a = (a, LoginResult.lockedRetry ((t - now) / usPerMinute + 1)) ∧
    0 < (t - now) / usPerMinute + 1 ∧
    ((t - now) % usPerMinute ≠ 0 →
      (t - now) / usPerMinute + 1 = (t - now + usPerMinute - 1) / usPerMinute) ∧
    (t - now < 10 * usPerMinute → (t - now) / usPerMinute + 1 ≤ 10) := by
  refine ⟨?_, Nat.succ_pos _, ?_, ?_⟩
  · simp [login, hl, hfut]
  · intro h
    simp only [usPerMinute, usPerSecond] at h ⊢
    omega
  · intro h
    simp only [usPerMinute, usPerSecond] at h ⊢
    omega

/-- Witness for the amended claim C2 at the concrete account
acctLocked90, a wrong-password attempt at time 0. -/
theorem C2_locked_rejection_witness :
    acctLocked90.lockout_until = some 90000000 ∧ (0 : Nat) < 90000000 ∧
    (login 0 false acctLocked90 =
      (acctLocked90, LoginResult.lockedRetry ((90000000 - 0) / usPerMinute + 1)) ∧
    0 < (90000000 - 0) / usPerMinute + 1 ∧
    ((90000000 - 0) % usPerMinute ≠ 0 →
      (90000000 - 0) / usPerMinute + 1 = (90000000 - 0 + usPerMinute - 1) / usPerMinute) ∧
    (90000000 - 0 < 10 * usPerMinute → (90000000 - 0) / usPerMinute + 1 ≤ 10)) :=
  ⟨rfl, by decide, C2_locked_rejection 0 90000000 false acctLocked90 rfl (by decide)⟩

/-- Claim C4 counterexample: on a concrete successful login the issued
refresh token expires 7 days out while the access token expires 30 days
out, so the refresh token is not the longer-lived of the two. -/
theorem C4_counterexample :
    (login 0 true acctOk).2 =
      LoginResult.success (create_access_token 0 acctOk) (create_refresh_token 0 acctOk)
        (mkAuthCookie "access_token") (mkAuthCookie "refresh_token") ∧
    (create_refresh_token 0 acctOk).exp < (create_access_token 0 acctOk).exp ∧
    ¬ ((create_access_token 0 acctOk).exp ≤ (create_refresh_token 0 acctOk).exp) := by
  exact ⟨by decide, by decide, by decide⟩

/-- Claim C4 (amended): on every successful login the access token is
issued with a 30-day expiry and the refresh token with a 7-day expiry,
so the refresh token is the shorter-lived of the two; both are delivered
as HTTP-only same-site-lax cookies with matching (30-day) max-age and
expiry. -/
theorem C4_token_and_cookie_issuance (now : Nat) (a : Account)
    (hact : a.status = Status.ACTIVE) (hlock : lockActive now a = false) :
    (login now true a).2 =
      LoginResult.success
        (create_access_token now { a with failed_attempts := 0, lockout_until := none })
        (create_refresh_token now { a with failed_attempts := 0, lockout_until := none })
        (mkAuthCookie "access_token") (mkAuthCookie "refresh_token") ∧
    (create_access_token now { a with failed_attempts := 0, lockout_until := none }).exp
      = now + 30 * usPerDay ∧
    (create_refresh_token now { a with failed_attempts := 0, lockout_until := none }).exp
      = now + 7 * usPerDay ∧
    (create_refresh_token now { a with failed_attempts := 0, lockout_until := none }).exp <
      (create_access_token now { a with failed_attempts := 0, lockout_until := none }).exp ∧
    (mkAuthCookie "access_token").httponly = true ∧
    (mkAuthCookie "refresh_token").httponly = true ∧
    (mkAuthCookie "access_token").samesite = "lax" ∧
    (mkAuthCookie "refresh_token").samesite = "lax" ∧
    (mkAuthCookie "access_token").max_age = (mkAuthCookie "refresh_token").max_age ∧
    (mkAuthCookie "access_token").expires = (mkAuthCookie "refresh_token").expires := by
  have hbranch : login now true a = loginAfterLockCheck now true a := by
    unfold login
    cases h : a.lockout_until with
    | none => rfl
    | some t =>
      simp only [lockActive, h, decide_eq_false_iff_not] at hlock
      simp [hlock]
  refine ⟨?_, rfl, rfl, ?_, rfl, rfl, rfl, rfl, rfl, rfl⟩
  · rw [hbranch]
    unfold loginAfterLockCheck
    simp [hact]
  · simp only [create_access_token, create_refresh_token, usPerDay, usPerMinute, usPerSecond]
    omega

/-- Witness for the amended claim C4 at the concrete account acctOk at
time 0. -/
theorem C4_token_and_cookie_issuance_witness :
    acctOk.status = Status.ACTIVE ∧ lockActive 0 acctOk = false ∧
    ((login 0 true acctOk).2 =
      LoginResult.success
        (create_access_token 0 { acctOk with failed_attempts := 0, lockout_until := none })
        (create_refresh_token 0 { acctOk with failed_attempts := 0, lockout_until := none })
        (mkAuthCookie "access_token") (mkAuthCookie "refresh_token") ∧
    (create_access_token 0 { acctOk with failed_attempts := 0, lockout_until := none }).exp
      = 0 + 30 * usPerDay ∧
    (create_refresh_token 0 { acctOk with failed_attempts := 0, lockout_until := none }).exp
      = 0 + 7 * usPerDay ∧
    (create_refresh_token 0 { acctOk with failed_attempts := 0, lockout_until := none }).exp <
      (create_access_token 0 { acctOk with failed_attempts := 0, lockout_until := none }).exp ∧
    (mkAuthCookie "access_token").httponly = true ∧
    (mkAuthCookie "refresh_token").httponly = true ∧
    (mkAuthCookie "access_token").samesite = "lax" ∧
    (mkAuthCookie "refresh_token").samesite = "lax" ∧
    (mkAuthCookie "access_token").max_age = (mkAuthCookie "refresh_token").max_age ∧
    (mkAuthCookie "access_token").expires = (mkAuthCookie "refresh_token").expires) :=
  ⟨rfl, by decide, C4_token_and_cookie_issuance 0 acctOk rfl (by decide)⟩

/-- Helper: the batch-upload loop never inserts a repository row or a
doc_chunks row, whatever its inputs, because the insert step cannot be
reached with a bound connection constructor. -/
theorem upload_multiple_files_go_noinsert (emb : String → List Int)
    (role owner_id : String) (sv : String × String) :
    ∀ (files : List BatchItem) (st : RepoState) (results : List BatchResultItem)
      (skipped : List SkippedItem),
      (upload_multiple_files_go emb role owner_id sv files st results skipped).1.repoRows
          = st.repoRows ∧
      (upload_multiple_files_go emb role owner_id sv files st results skipped).1.docChunks
          = st.docChunks := by
  intro files
  induction files with
  | nil => intro st r s; exact ⟨rfl, rfl⟩
  | cons f rest ih =>
    intro st r s
    unfold upload_multiple_files_go
    by_cases hs : is_supported f.filename = false
    · rw [if_pos hs]
      exact ih _ _ _
    · rw [if_neg hs]
      cases hx : f.extract with
      | error e => exact ⟨rfl, rfl⟩
      | ok text =>
        dsimp only
        by_cases ht : pyStrip text = ""
        · rw [if_pos ht]
          exact ih _ _ _
        · rw [if_neg ht]
          exact ⟨rfl, rfl⟩

/-- Helper: when every extraction call of a batch returns normally and at
least one file passes both loop guards, the batch-upload loop aborts with
the NameError raised at the insert step. -/
theorem upload_multiple_files_go_error (emb : String → List Int)
    (role owner_id : String) (sv : String × String) :
    ∀ (files : List BatchItem) (st : RepoState) (results : List BatchResultItem)
      (skipped : List SkippedItem),
      (∀ f ∈ files, f.extractOk = true) →
      (∃ f ∈ files, f.isProcessed = true) →
      (upload_multiple_files_go emb role owner_id sv files st results skipped).2
        = Except.error (PyErr.nameError "get_connection_repo") := by
  intro files
  induction files with
  | nil =>
    intro st r s _ hp
    simp at hp
  | cons f rest ih =>
    intro st r s hx hp
    unfold upload_multiple_files_go
    by_cases hs : is_supported f.filename = false
    · rw [if_pos hs]
      refine ih _ _ _ (fun g hg => hx g (List.mem_cons_of_mem _ hg)) ?_
      obtain ⟨g, hg, hgp⟩ := hp
      rcases List.mem_cons.mp hg with rfl | hg'
      · simp [BatchItem.isProcessed, hs] at hgp
      · exact ⟨g, hg', hgp⟩
    · rw [if_neg hs]
      have hfx := hx f (List.mem_cons_self _ _)
      cases hxe : f.extract with
      | error e =>
        unfold BatchItem.extractOk at hfx
        rw [hxe] at hfx
        cases hfx
      | ok text =>
        dsimp only
        by_cases ht : pyStrip text = ""
        · rw [if_pos ht]
          refine ih _ _ _ (fun g hg => hx g (List.mem_cons_of_mem _ hg)) ?_
          obtain ⟨g, hg, hgp⟩ := hp
          rcases List.mem_cons.mp hg with rfl | hg'
          · simp [BatchItem.isProcessed, hxe, ht] at hgp
          · exact ⟨g, hg', hgp⟩
        · rw [if_neg ht]
          rfl

/-- Claim C3: the smart-repository upload and search endpoints reference
get_connection_repo, a name their modules never bind (only
get_connection is imported from database.db), so the single-file upload
dies at the database-insert step with an unhandled NameError whenever
the preceding external calls return normally, never inserting a
repository_files or doc_chunks row (the bytes having already been
written to local storage); the batch upload and the semantic topic
search fail the same way. -/
theorem C3_upload_endpoints_name_error (emb : String → List Int)
    (filename role owner_id text query : String) (m : Metadata)
    (sections : List DocSection) (st st2 : RepoState)
    (extract : Except String String) (classify : Except String Metadata)
    (files : List BatchItem) (db : List ChunkRow)
    (hx : ∀ f ∈ files, f.extractOk = true)
    (hp : ∃ f ∈ files, f.isProcessed = true) :
    upload_file emb filename role owner_id (Except.ok text) (Except.ok m) sections st =
      ({ st with savedPaths := st.savedPaths ++ ["uploads/" ++ filename] },
       Except.error (PyErr.nameError "get_connection_repo")) ∧
    (upload_file emb filename role owner_id extract classify sections st).1.repoRows
        = st.repoRows ∧
    (upload_file emb filename role owner_id extract classify sections st).1.docChunks
        = st.docChunks ∧
    (upload_multiple_files emb role owner_id files st2).1.repoRows = st2.repoRows ∧
    (upload_multiple_files emb role owner_id files st2).1.docChunks = st2.docChunks ∧
    (upload_multiple_files emb role owner_id files st2).2
        = Except.error (PyErr.nameError "get_connection_repo") ∧
    semantic_topic_search emb query db
        = Except.error (PyErr.nameError "get_connection_repo") := by
  refine ⟨rfl, ?_, ?_, ?_, ?_, ?_, rfl⟩
  · cases extract with
    | error e => rfl
    | ok t =>
      cases classify with
      | error e => rfl
      | ok mm => rfl
  · cases extract with
    | error e => rfl
    | ok t =>
      cases classify with
      | error e => rfl
      | ok mm => rfl
  · exact (upload_multiple_files_go_noinsert emb role owner_id
      (determine_initial_status role) files st2 [] []).1
  · exact (upload_multiple_files_go_noinsert emb role owner_id
      (determine_initial_status role) files st2 [] []).2
  · exact upload_multiple_files_go_error emb role owner_id
      (determine_initial_status role) files st2 [] [] hx hp

/-- Witness for claim C3 at a concrete single upload, a one-file batch
and a concrete search call. -/
theorem C3_upload_endpoints_name_error_witness :
    (∀ f ∈ [batchItemTxt], f.extractOk = true) ∧
    (∃ f ∈ [batchItemTxt], f.isProcessed = true) ∧
    (upload_file embZero "notes.pdf" "student" "7" (Except.ok "hello") (Except.ok mdExample)
        [] emptyRepoState =
      ({ emptyRepoState with savedPaths := emptyRepoState.savedPaths ++ ["uploads/notes.pdf"] },
       Except.error (PyErr.nameError "get_connection_repo")) ∧
    (upload_file embZero "notes.pdf" "student" "7" (Except.ok "hello") (Except.ok mdExample)
        [] emptyRepoState).1.repoRows = emptyRepoState.repoRows ∧
    (upload_file embZero "notes.pdf" "student" "7" (Except.ok "hello") (Except.ok mdExample)
        [] emptyRepoState).1.docChunks = emptyRepoState.docChunks ∧
    (upload_multiple_files embZero "student" "7" [batchItemTxt] emptyRepoState).1.repoRows
        = emptyRepoState.repoRows ∧
    (upload_multiple_files embZero "student" "7" [batchItemTxt] emptyRepoState).1.docChunks
        = emptyRepoState.docChunks ∧
    (upload_multiple_files embZero "student" "7" [batchItemTxt] emptyRepoState).2
        = Except.error (PyErr.nameError "get_connection_repo") ∧
    semantic_topic_search embZero "what is a stack" []
        = Except.error (PyErr.nameError "get_connection_repo")) :=
  ⟨by decide, by decide,
   C3_upload_endpoints_name_error embZero "notes.pdf" "student" "7" "hello" "what is a stack"
     mdExample [] emptyRepoState emptyRepoState (Except.ok "hello") (Except.ok mdExample)
     [batchItemTxt] [] (by decide) (by decide)⟩

/-- Claim C5 counterexample: the smart-repository upload path takes the
status it writes into the new repository_files row from
determine_initial_status, which for a student upload returns
"ai_reviewed" — not PENDING under either spelling used by the two
stores. -/
theorem C5_counterexample :
    determine_initial_status "student" = ("ai_reviewed", "private") ∧
    "ai_reviewed" ≠ "pending" ∧ "ai_reviewed" ≠ "PENDING" := by
  exact ⟨rfl, by decide, by decide⟩

/-- Claim C5 (amended): on the portal paths every faculty-created
file-metadata row has status APPROVED and every student-created row has
status PENDING at creation; on the smart-repository path the row status
comes from determine_initial_status, which gives "approved" for faculty
uploads but "ai_reviewed" (not PENDING) for student uploads. -/
theorem C5_initial_statuses (fid : Nat) (filename subject_code unit semester : String)
    (uid : Nat) (classify : Except String Metadata) :
    (facultyUploadRow fid filename subject_code unit semester uid).status
      = FileStatus.APPROVED ∧
    (studentUploadRow fid filename uid classify).status = FileStatus.PENDING ∧
    determine_initial_status "faculty" = ("approved", "public") ∧
    determine_initial_status "student" = ("ai_reviewed", "private") := by
  exact ⟨rfl, rfl, rfl, rfl⟩

/-- Claim C6 counterexample: on the single-file smart-repository upload
path a failing classification call is not caught — the endpoint
propagates the exception instead of substituting placeholder metadata
and succeeding. -/
theorem C6_counterexample :
    (upload_file embZero "notes.pdf" "student" "7" (Except.ok "lecture text")
        (Except.error "classifier unavailable") [] emptyRepoState).2
      = Except.error (PyErr.externalError "classifier unavailable") := by
  rfl

/-- Claim C6 (amended): a failing classification call is caught and
replaced with placeholder metadata on the batch upload path
("unknown"/"unknown"/"0") and on the student portal upload path
(defaults "UNKNOWN"/"6"/"1", the row still created with status PENDING);
on the single-file smart-repository path it is not caught and the
exception propagates. -/
theorem C6_classify_exception_paths (emb : String → List Int)
    (e text filename owner_id : String) (fid uid : Nat)
    (sections : List DocSection) (st : RepoState) :
    batchClassifyStep (Except.error e)
      = { semester := "unknown", subject_code := "unknown", unit := "0" } ∧
    studentClassifyStep (Except.error e) = ("UNKNOWN", "6", "1") ∧
    (studentUploadRow fid filename uid (Except.error e)).status = FileStatus.PENDING ∧
    (studentUploadRow fid filename uid (Except.error e)).subject_code = "UNKNOWN" ∧
    (upload_file emb filename "student" owner_id (Except.ok text)
        (Except.error e) sections st).2 = Except.error (PyErr.externalError e) := by
  exact ⟨rfl, rfl, rfl, rfl, rfl⟩

/-- Helper: updating the status of the matching rows commutes with
looking the file up by id. -/
theorem find?_map_setStatus (db : List UploadedFileRow) (fid : Nat) (s : FileStatus) :
    (db.map (fun f => if f.id == fid then { f with status := s } else f)).find?
        (fun f => f.id == fid) =
      (db.find? (fun f => f.id == fid)).map (fun f => { f with status := s }) := by
  induction db with
  | nil => rfl
  | cons f rest ih =>
    by_cases h : f.id = fid
    · have hif : (f.id == fid) = true := by simp [h]
      have hif2 : ((({ f with status := s } : UploadedFileRow)).id == fid) = true := hif
      rw [List.map_cons, if_pos hif,
          List.find?_cons_of_pos (p := fun g : UploadedFileRow => g.id == fid) _ hif2,
          List.find?_cons_of_pos (p := fun g : UploadedFileRow => g.id == fid) _ hif,
          Option.map_some']
    · have hif : ¬ ((f.id == fid) = true) := by simp [h]
      rw [List.map_cons, if_neg hif,
          List.find?_cons_of_neg (p := fun g : UploadedFileRow => g.id == fid) _ hif,
          List.find?_cons_of_neg (p := fun g : UploadedFileRow => g.id == fid) _ hif, ih]

/-- Helper: membership in the sorted insertion. -/
theorem mem_insertSortedByDist (q : List Int) (c x : ChunkRow) (l : List ChunkRow) :
    x ∈ insertSortedByDist q c l ↔ x = c ∨ x ∈ l := by
  induction l with
  | nil => simp [insertSortedByDist]
  | cons d ds ih =>
    by_cases h : chunkDist q c ≤ chunkDist q d
    · simp [insertSortedByDist, h]
    · simp only [insertSortedByDist, if_neg h, List.mem_cons, ih]
      tauto

/-- Helper: sorting by distance preserves membership. -/
theorem mem_orderByDist (q : List Int) (x : ChunkRow) (l : List ChunkRow) :
    x ∈ orderByDist q l ↔ x ∈ l := by
  induction l with
  | nil => simp [orderByDist]
  | cons d ds ih =>
    simp [orderByDist, mem_insertSortedByDist, ih]

/-- Helper: sorted insertion preserves sortedness by distance. -/
theorem sorted_insertSortedByDist (q : List Int) (c : ChunkRow) (l : List ChunkRow)
    (h : l.Sorted (fun a b => chunkDist q a ≤ chunkDist q b)) :
    (insertSortedByDist q c l).Sorted (fun a b => chunkDist q a ≤ chunkDist q b) := by
  induction l with
  | nil => simp [insertSortedByDist]
  | cons d ds ih =>
    rw [List.sorted_cons] at h
    by_cases hc : chunkDist q c ≤ chunkDist q d
    · rw [insertSortedByDist, if_pos hc, List.sorted_cons]
      refine ⟨?_, List.sorted_cons.mpr h⟩
      intro b hb
      rcases List.mem_cons.mp hb with rfl | hb'
      · exact hc
      · exact le_trans hc (h.1 b hb')
    · rw [insertSortedByDist, if_neg hc, List.sorted_cons]
      refine ⟨?_, ih h.2⟩
      intro b hb
      rcases (mem_insertSortedByDist q c b ds).mp hb with rfl | hb'
      · exact le_of_not_le hc
      · exact h.1 b hb'

/-- Helper: the distance sort produces a list sorted by non-decreasing
distance to the query embedding. -/
theorem sorted_orderByDist (q : List Int) (l : List ChunkRow) :
    (orderByDist q l).Sorted (fun a b => chunkDist q a ≤ chunkDist q b) := by
  induction l with
  | nil => simp [orderByDist]
  | cons d ds ih => exact sorted_insertSortedByDist q d (orderByDist q ds) ih

/-- Claim C7: single-document retrieval returns at most 3 chunks, all
with the requested file id; subject retrieval returns at most 5 chunks,
all with the requested subject code; both scopes return their chunks
ordered by non-decreasing embedding distance to the question. -/
theorem C7_retrieval_scopes (db : List ChunkRow) (q : List Int) (fid : Nat) (sc : String) :
    ((chat_with_single_document_rows db q fid).length ≤ 3 ∧
     (∀ c ∈ chat_with_single_document_rows db q fid, c.file_id = fid) ∧
     (chat_with_single_document_rows db q fid).Sorted
       (fun a b => chunkDist q a ≤ chunkDist q b)) ∧
    ((chat_with_subject_rows db q sc).length ≤ 5 ∧
     (∀ c ∈ chat_with_subject_rows db q sc, c.subject_code = sc) ∧
     (chat_with_subject_rows db q sc).Sorted
       (fun a b => chunkDist q a ≤ chunkDist q b)) := by
  refine ⟨⟨?_, ?_, ?_⟩, ⟨?_, ?_, ?_⟩⟩
  · exact (List.length_take_le 3 _)
  · intro c hc
    have h1 := List.mem_of_mem_take hc
    have h2 := (mem_orderByDist q c _).mp h1
    have h3 := (List.mem_filter.mp h2).2
    exact of_decide_eq_true h3
  · exact (sorted_orderByDist q _).sublist (List.take_sublist _ _)
  · exact (List.length_take_le 5 _)
  · intro c hc
    have h1 := List.mem_of_mem_take hc
    have h2 := (mem_orderByDist q c _).mp h1
    have h3 := (List.mem_filter.mp h2).2
    exact of_decide_eq_true h3
  · exact (sorted_orderByDist q _).sublist (List.take_sublist _ _)

/-- Helper: unfolding of the splitter in its base case. -/
theorem splitTextSpec_eq_base (C O : Nat) (t : List Char) (h : t.length ≤ C ∨ C ≤ O) :
    splitTextSpec C O t = [t] := by
  rw [splitTextSpec]
  exact dif_pos h

/-- Helper: unfolding of the splitter in its recursive case. -/
theorem splitTextSpec_eq_step (C O : Nat) (t : List Char) (h : ¬ (t.length ≤ C ∨ C ≤ O)) :
    splitTextSpec C O t = t.take C :: splitTextSpec C O (t.drop (C - O)) := by
  rw [splitTextSpec]
  exact dif_neg h

/-- Helper: the i-th chunk is the window of width C starting at offset
i * (C - O) of the original text, so consecutive start offsets advance
by exactly C - O. -/
theorem splitTextSpec_get (C O : Nat) (hOC : O < C) :
    ∀ (t : List Char) (i : Nat), i < (splitTextSpec C O t).length →
      (splitTextSpec C O t)[i]? = some ((t.drop (i * (C - O))).take C) := by
  intro t
  induction t using splitTextSpec.induct C O with
  | case1 t h =>
    intro i hi
    rw [splitTextSpec_eq_base C O t h] at hi ⊢
    rw [List.length_cons, List.length_nil] at hi
    have hi0 : i = 0 := by omega
    subst hi0
    have hle : t.length ≤ C := by
      rcases h with h1 | h2
      · exact h1
      · omega
    simp [List.take_of_length_le hle]
  | case2 t h ih =>
    intro i hi
    rw [splitTextSpec_eq_step C O t h] at hi ⊢
    cases i with
    | zero => simp
    | succ j =>
      rw [List.getElem?_cons_succ]
      rw [List.length_cons] at hi
      have hj : j < (splitTextSpec C O (t.drop (C - O))).length := by omega
      rw [ih j hj, List.drop_drop]
      have e : C - O + j * (C - O) = (j + 1) * (C - O) := by ring
      rw [e]

/-- Helper: dropping the leading O characters of every chunk and
concatenating yields the text with its own first O characters dropped. -/
theorem splitTextSpec_drop_flatten (C O : Nat) (hOC : O < C) :
    ∀ t : List Char,
      ((splitTextSpec C O t).map (fun d => d.drop O)).flatten = t.drop O := by
  intro t
  induction t using splitTextSpec.induct C O with
  | case1 t h =>
    rw [splitTextSpec_eq_base C O t h]
    simp
  | case2 t h ih =>
    rw [splitTextSpec_eq_step C O t h, List.map_cons, List.flatten_cons, ih]
    rw [List.drop_take, List.drop_drop]
    have e1 : C - O + O = C := by omega
    rw [e1]
    have e2 : t.drop C = (t.drop O).drop (C - O) := by
      rw [List.drop_drop]
      congr 1
      omega
    rw [e2, List.take_append_drop]

/-- Claim C8: for a text split with chunk size C and overlap O < C, the
i-th chunk starts at offset i * (C - O) of the original text (so start
offsets of consecutive chunks advance by exactly C - O, the final chunk
merely being allowed to be shorter than C), and concatenating the chunks
with each later chunk's leading O-character overlap removed reconstructs
the original text exactly. -/
theorem C8_chunk_offsets_and_reconstruction (C O : Nat) (t : List Char) (i : Nat)
    (hOC : O < C) (hi : i < (splitTextSpec C O t).length) :
    (splitTextSpec C O t)[i]? = some ((t.drop (i * (C - O))).take C) ∧
    joinWithOverlapRemoved O (splitTextSpec C O t) = t := by
  refine ⟨splitTextSpec_get C O hOC t i hi, ?_⟩
  by_cases h : t.length ≤ C ∨ C ≤ O
  · rw [splitTextSpec_eq_base C O t h]
    simp [joinWithOverlapRemoved]
  · rw [splitTextSpec_eq_step C O t h]
    rw [show joinWithOverlapRemoved O (t.take C :: splitTextSpec C O (t.drop (C - O)))
        = t.take C ++ ((splitTextSpec C O (t.drop (C - O))).map (fun d => d.drop O)).flatten
        from rfl]
    rw [splitTextSpec_drop_flatten C O hOC, List.drop_drop]
    have e1 : C - O + O = C := by omega
    rw [e1, List.take_append_drop]

/-- Witness for claim C8 with chunk size 3, overlap 1 and the text
"abcde", whose chunks are "abc" and "cde". -/
theorem C8_chunk_offsets_and_reconstruction_witness :
    (1 : Nat) < 3 ∧ 1 < (splitTextSpec 3 1 "abcde".toList).length ∧
    ((splitTextSpec 3 1 "abcde".toList)[1]? =
      some (("abcde".toList.drop (1 * (3 - 1))).take 3) ∧
    joinWithOverlapRemoved 1 (splitTextSpec 3 1 "abcde".toList) = "abcde".toList) := by
  have hsplit : splitTextSpec 3 1 "abcde".toList = ["abc".toList, "cde".toList] := by
    rw [splitTextSpec_eq_step 3 1 _ (by decide)]
    rw [splitTextSpec_eq_base 3 1 _ (by decide)]
    decide
  have hlen : 1 < (splitTextSpec 3 1 "abcde".toList).length := by
    rw [hsplit]
    decide
  exact ⟨by decide, hlen,
    C8_chunk_offsets_and_reconstruction 3 1 "abcde".toList 1 (by decide) hlen⟩

/-- Claim C9: for every existing file id, the admin approve and deny
handlers succeed and set the status unconditionally, so approving an
already-APPROVED file (and denying an already-DENIED one) does not error
and leaves the status unchanged. -/
theorem C9_admin_file_moderation_idempotent (db : List UploadedFileRow) (fid : Nat)
    (h : (db.find? (fun f => f.id == fid)).isSome = true) :
    (approve_file db fid).2 = Except.ok () ∧
    fileStatus (approve_file db fid).1 fid = some FileStatus.APPROVED ∧
    (fileStatus db fid = some FileStatus.APPROVED →
      fileStatus (approve_file db fid).1 fid = fileStatus db fid) ∧
    (deny_file db fid).2 = Except.ok () ∧
    fileStatus (deny_file db fid).1 fid = some FileStatus.DENIED ∧
    (fileStatus db fid = some FileStatus.DENIED →
      fileStatus (deny_file db fid).1 fid = fileStatus db fid) := by
  obtain ⟨f, hf⟩ := Option.isSome_iff_exists.mp h
  have ha2 : (approve_file db fid).2 = Except.ok () := by
    unfold approve_file
    rw [hf]
  have ha1 : (approve_file db fid).1 =
      db.map (fun g => if g.id == fid then { g with status := FileStatus.APPROVED } else g) := by
    unfold approve_file
    rw [hf]
  have hd2 : (deny_file db fid).2 = Except.ok () := by
    unfold deny_file
    rw [hf]
  have hd1 : (deny_file db fid).1 =
      db.map (fun g => if g.id == fid then { g with status := FileStatus.DENIED } else g) := by
    unfold deny_file
    rw [hf]
  have hsa : fileStatus (approve_file db fid).1 fid = some FileStatus.APPROVED := by
    rw [ha1]
    unfold fileStatus
    rw [find?_map_setStatus, hf]
    rfl
  have hsd : fileStatus (deny_file db fid).1 fid = some FileStatus.DENIED := by
    rw [hd1]
    unfold fileStatus
    rw [find?_map_setStatus, hf]
    rfl
  exact ⟨ha2, hsa, fun hs => by rw [hsa, hs], hd2, hsd, fun hs => by rw [hsd, hs]⟩

/-- Witness for claim C9 at a one-row store whose file 1 is already
APPROVED. -/
theorem C9_admin_file_moderation_idempotent_witness :
    (([fileRowApproved].find? (fun f => f.id == 1)).isSome = true) ∧
    ((approve_file [fileRowApproved] 1).2 = Except.ok () ∧
    fileStatus (approve_file [fileRowApproved] 1).1 1 = some FileStatus.APPROVED ∧
    (fileStatus [fileRowApproved] 1 = some FileStatus.APPROVED →
      fileStatus (approve_file [fileRowApproved] 1).1 1 = fileStatus [fileRowApproved] 1) ∧
    (deny_file [fileRowApproved] 1).2 = Except.ok () ∧
    fileStatus (deny_file [fileRowApproved] 1).1 1 = some FileStatus.DENIED ∧
    (fileStatus [fileRowApproved] 1 = some FileStatus.DENIED →
      fileStatus (deny_file [fileRowApproved] 1).1 1 = fileStatus [fileRowApproved] 1)) :=
  ⟨by decide, C9_admin_file_moderation_idempotent [fileRowApproved] 1 (by decide)⟩

/-- Claim C10: for every existing user id the admin account-deny handler
evaluates Status.DENIED, which the Status enum (PENDING, ACTIVE,
SUSPENDED) does not define, so it raises AttributeError before any
assignment or commit and the store is returned unchanged; no account can
ever hold a DENIED status. -/
theorem C10_deny_account_attribute_error (db : List Account) (uid : Nat)
    (h : (db.find? (fun u => u.id == uid)).isSome = true) :
    deny_account db uid = (db, Except.error (PyErr.attrError "Status" "DENIED")) ∧
    Status.attrLookup "DENIED" = none := by
  obtain ⟨u, hu⟩ := Option.isSome_iff_exists.mp h
  unfold deny_account
  rw [hu]
  exact ⟨rfl, rfl⟩

/-- Witness for claim C10 at a one-row account store. -/
theorem C10_deny_account_attribute_error_witness :
    (([acctOk].find? (fun u => u.id == 1)).isSome = true) ∧
    (deny_account [acctOk] 1 = ([acctOk], Except.error (PyErr.attrError "Status" "DENIED")) ∧
    Status.attrLookup "DENIED" = none) :=
  ⟨by decide, C10_deny_account_attribute_error [acctOk] 1 (by decide)⟩

end Solv
